import Mathlib

/-!
Verification of the weather-cli fetch-parse-cache pipeline.

The definitions below are a shallow embedding of the Python sources
(`weather_cli/api_client.py`, `weather_cli/database.py`, `weather_cli/models.py`,
`weather_cli/cli.py`, `weather_cli/config.py`):

* JSON-like payloads are modelled by `PyVal`; the dynamic operations the parser
  uses (`in`, `.get`, subscripting, `float()`, `int()`, truthiness) are modelled
  as `Except`-valued functions that reproduce the Python exceptions they raise.
* The SQLite store is modelled as a list of rows in rowid (insertion) order plus
  the AUTOINCREMENT counter; `save_weather`, `get_cached_weather`,
  `get_weather_by_id` and `list_weather` embed the SQL executed by
  `database.py`, including the `ON CONFLICT(city, country) DO UPDATE` upsert,
  the connection-scoped `lastrowid`, the `LIKE` pattern match and the
  `LIMIT`/`ORDER BY` clauses.
* `fetch_current_weather` embeds the try/except structure of the HTTP client as
  a function of the transport outcome.

Numbers use `Rat`/`Int`/`Nat` (the code only moves numeric values around, it
performs no arithmetic on them), timestamps are integers.
-/

namespace WeatherCli

/-! ### Python dynamic values -/

/-- A JSON-like Python value, as produced by `response.json()`. -/
inductive PyVal where
  | pnone
  | pbool (b : Bool)
  | pint (n : Int)
  | pfloat (q : Rat)
  | pstr (s : String)
  | plist (xs : List PyVal)
  | pdict (entries : List (String × PyVal))

/-- The Python exceptions that the parsing code can raise or catch. -/
inductive PyErr where
  | typeErr (msg : String)
  | valueErr (msg : String)
  | keyErr (msg : String)
  | indexErr (msg : String)
  | attrErr (msg : String)
deriving DecidableEq

/-- `str(e)` of an exception: the message it carries. -/
def PyErr.msgOf : PyErr → String
  | .typeErr m => m
  | .valueErr m => m
  | .keyErr m => m
  | .indexErr m => m
  | .attrErr m => m

/-- Membership in the tuple `(KeyError, ValueError, TypeError, IndexError)` used by
both except-clauses of `_parse_weather_data` and the inner clause of
`_parse_forecast_data`.  `AttributeError` is not in the tuple and escapes. -/
def PyErr.caught4 : PyErr → Bool
  | .attrErr _ => false
  | _ => true

/-- Membership in the tuple `(KeyError, ValueError, TypeError)` of the outer
except-clause of `_parse_forecast_data` (it does not list `IndexError`). -/
def PyErr.caught3 : PyErr → Bool
  | .attrErr _ => false
  | .indexErr _ => false
  | _ => true

/-- First-match key lookup in a Python dict (keys are unique in a real dict,
so first-match agrees with dict semantics). -/
def lookupKey (es : List (String × PyVal)) (k : String) : Option PyVal :=
  (es.find? (fun e => e.1 == k)).map (fun e => e.2)

/-- Python truthiness, as used by `if not weather:`. -/
def pyTruthy : PyVal → Bool
  | .pnone => false
  | .pbool b => b
  | .pint n => n != 0
  | .pfloat q => q != 0
  | .pstr s => !s.isEmpty
  | .plist xs => !xs.isEmpty
  | .pdict es => !es.isEmpty

/-- `leadsWith n h` is true when the char list `n` is an initial run of `h`. -/
def leadsWith : List Char → List Char → Bool
  | [], _ => true
  | _ :: _, [] => false
  | a :: as, b :: bs => a == b && leadsWith as bs

/-- `occursIn n h` is true when `n` occurs contiguously inside `h`
(Python `in` on strings). -/
def occursIn (n : List Char) : List Char → Bool
  | [] => n.isEmpty
  | c :: rest => leadsWith n (c :: rest) || occursIn n rest

/-- String form of `occursIn`. -/
def strOccurs (n h : String) : Bool :=
  occursIn n.toList h.toList

/-- The Python `in` operator `k in v` for a string `k`: key membership on dicts,
element membership on lists, substring test on strings, `TypeError` otherwise. -/
def pyContains (k : String) : PyVal → Except PyErr Bool
  | .pdict es => .ok (lookupKey es k).isSome
  | .plist xs => .ok (xs.any (fun x => match x with | .pstr s => s == k | _ => false))
  | .pstr s => .ok (strOccurs k s)
  | _ => .error (.typeErr "argument of type is not iterable")

/-- `v.get(k, dflt)`: only dicts have a `get` attribute; anything else raises
`AttributeError`, which none of the except-clauses in `api_client.py` list. -/
def pyGetD (v : PyVal) (k : String) (dflt : PyVal) : Except PyErr PyVal :=
  match v with
  | .pdict es => .ok ((lookupKey es k).getD dflt)
  | _ => .error (.attrErr "object has no attribute get")

/-- `v[k]` for a string key `k`. -/
def pyGetItemS (v : PyVal) (k : String) : Except PyErr PyVal :=
  match v with
  | .pdict es =>
    match lookupKey es k with
    | some x => .ok x
    | none => .error (.keyErr k)
  | .plist _ => .error (.typeErr "list indices must be integers")
  | .pstr _ => .error (.typeErr "string indices must be integers")
  | _ => .error (.typeErr "object is not subscriptable")

/-- `v[0]`, as in `data.get("weather", [{}])[0]`. -/
def pyGetItem0 (v : PyVal) : Except PyErr PyVal :=
  match v with
  | .plist [] => .error (.indexErr "list index out of range")
  | .plist (x :: _) => .ok x
  | .pstr s => if s.isEmpty then .error (.indexErr "string index out of range") else .ok (.pstr (s.take 1))
  | .pdict _ => .error (.keyErr "0")
  | _ => .error (.typeErr "object is not subscriptable")

/-- Digits of a decimal literal folded into a natural number. -/
def digitsToNat (ds : List Char) : Nat :=
  ds.foldl (fun a c => a * 10 + (c.toNat - 48)) 0

/-- Split a char list at the first dot, if any. -/
def splitDot : List Char → List Char × Option (List Char)
  | [] => ([], none)
  | '.' :: r => ([], some r)
  | c :: r =>
    let p := splitDot r
    (c :: p.1, p.2)

/-- Parse a plain decimal literal (optional sign, digits, optional fraction), the
fragment of Python `float(str)` behaviour the pipeline can meet.  Returns `none`
for strings Python would reject with `ValueError` (such as `"abc"`). -/
def decOfString (s : String) : Option Rat :=
  let t := s.toList
  let signed : Bool × List Char :=
    match t with
    | '-' :: r => (true, r)
    | '+' :: r => (false, r)
    | _ => (false, t)
  let body := splitDot signed.2
  let intPart := body.1
  match body.2 with
  | none =>
    if intPart ≠ [] ∧ intPart.all Char.isDigit then
      some ((if signed.1 then -1 else 1) * (digitsToNat intPart : Rat))
    else none
  | some fracPart =>
    if (intPart ≠ [] ∨ fracPart ≠ []) ∧ intPart.all Char.isDigit ∧ fracPart.all Char.isDigit then
      some ((if signed.1 then -1 else 1) *
        ((digitsToNat intPart : Rat) + (digitsToNat fracPart : Rat) / ((10 : Rat) ^ fracPart.length)))
    else none

/-- Parse a plain integer literal, the fragment of Python `int(str)` behaviour
the pipeline can meet. -/
def intOfString (s : String) : Option Int :=
  let t := s.toList
  let signed : Bool × List Char :=
    match t with
    | '-' :: r => (true, r)
    | '+' :: r => (false, r)
    | _ => (false, t)
  if signed.2 ≠ [] ∧ signed.2.all Char.isDigit then
    some ((if signed.1 then -1 else 1) * (digitsToNat signed.2 : Int))
  else none

/-- Python `float(v)`: numbers and booleans coerce, numeric strings parse,
other strings raise `ValueError`, non-string non-numbers raise `TypeError`. -/
def pyFloat : PyVal → Except PyErr Rat
  | .pint n => .ok n
  | .pfloat q => .ok q
  | .pbool b => .ok (if b then 1 else 0)
  | .pstr s =>
    match decOfString s with
    | some q => .ok q
    | none => .error (.valueErr ("could not convert string to float: \x27" ++ s ++ "\x27"))
  | _ => .error (.typeErr "float() argument must be a string or a real number")

/-- Truncation toward zero, as Python `int(float)` does. -/
def ratTrunc (q : Rat) : Int :=
  if 0 ≤ q then q.floor else q.ceil

/-- Python `int(v)`. -/
def pyInt : PyVal → Except PyErr Int
  | .pint n => .ok n
  | .pfloat q => .ok (ratTrunc q)
  | .pbool b => .ok (if b then 1 else 0)
  | .pstr s =>
    match intOfString s with
    | some n => .ok n
    | none => .error (.valueErr ("invalid literal for int() with base 10: \x27" ++ s ++ "\x27"))
  | _ => .error (.typeErr "int() argument must be a string or a real number")

/-- `datetime.fromtimestamp(v)`: accepts real numbers, raises `TypeError`
otherwise.  The resulting moment is modelled as an integer. -/
def pyFromTimestamp : PyVal → Except PyErr Int
  | .pint n => .ok n
  | .pfloat q => .ok q.floor
  | .pbool b => .ok (if b then 1 else 0)
  | _ => .error (.typeErr "an integer is required")

/-- Iteration `for item in v`: list elements, characters of a string, keys of a
dict; `TypeError` otherwise. -/
def pyIterate : PyVal → Except PyErr (List PyVal)
  | .plist xs => .ok xs
  | .pstr s => .ok (s.toList.map (fun c => .pstr (String.mk [c])))
  | .pdict es => .ok (es.map (fun e => .pstr e.1))
  | _ => .error (.typeErr "object is not iterable")

/-! ### The response validator (`_parse_weather_data`, `_parse_forecast_data`) -/

/-- The value `_parse_weather_data` builds.  The `float()`/`int()` coerced
fields carry their coerced types; `city`, `country` and `description` are taken
from the payload unchecked (a Python dataclass does not enforce annotations),
so they stay `PyVal`.  The `id` field is always `None` at this point and is
omitted; `timestamp` is the `datetime.now()` capture instant. -/
structure ParsedObs where
  city : PyVal
  country : PyVal
  temperature : Rat
  feels_like : Rat
  temp_min : Rat
  temp_max : Rat
  pressure : Int
  humidity : Int
  description : PyVal
  wind_speed : Rat
  clouds : Int
  timestamp : Int

/-- The required-key loop shared by both parsers: raise `ValueError` naming the
first key (in list order) the payload lacks. -/
def checkRequired (fs : List String) (data : PyVal) (pre : String) : Except PyErr Unit :=
  match fs with
  | [] => .ok ()
  | f :: rest => do
    let b ← pyContains f data
    if b then checkRequired rest data pre
    else .error (.valueErr (pre ++ f))

/-- The six required top-level keys of a single-observation payload. -/
def requiredTop : List String := ["name", "sys", "main", "weather", "wind", "clouds"]

/-- The five required keys of a forecast interval entry. -/
def requiredItem : List String := ["dt", "main", "weather", "wind", "clouds"]

/-- Body of the `try:` block of `_parse_weather_data`, with the keyword
arguments of the `WeatherData(...)` call evaluated in source order. -/
def parseWeatherInner (data : PyVal) (now : Int) : Except PyErr ParsedObs := do
  checkRequired requiredTop data "Missing required field: "
  let main ← pyGetD data "main" (.pdict [])
  let weather ← pyGetItem0 (← pyGetD data "weather" (.plist [.pdict []]))
  let wind ← pyGetD data "wind" (.pdict [])
  let sys ← pyGetD data "sys" (.pdict [])
  let clouds ← pyGetD data "clouds" (.pdict [])
  if !pyTruthy weather then .error (.valueErr "No weather description available") else
  let city ← pyGetItemS data "name"
  let country ← pyGetD sys "country" (.pstr "Unknown")
  let temperature ← pyFloat (← pyGetD main "temp" (.pint 0))
  let feels_like ← pyFloat (← pyGetD main "feels_like" (.pint 0))
  let temp_min ← pyFloat (← pyGetD main "temp_min" (.pint 0))
  let temp_max ← pyFloat (← pyGetD main "temp_max" (.pint 0))
  let pressure ← pyInt (← pyGetD main "pressure" (.pint 0))
  let humidity ← pyInt (← pyGetD main "humidity" (.pint 0))
  let description ← pyGetD weather "description" (.pstr "No description")
  let wind_speed ← pyFloat (← pyGetD wind "speed" (.pint 0))
  let cloudsAll ← pyInt (← pyGetD clouds "all" (.pint 0))
  .ok ⟨city, country, temperature, feels_like, temp_min, temp_max, pressure,
       humidity, description, wind_speed, cloudsAll, now⟩

/-- `_parse_weather_data`: the inner body wrapped by
`except (KeyError, ValueError, TypeError, IndexError) as e:
  raise ValueError(f"Malformed response data: {str(e)}")`.
`AttributeError` is not in the tuple and propagates unchanged. -/
def parse_weather_data (data : PyVal) (now : Int) : Except PyErr ParsedObs :=
  match parseWeatherInner data now with
  | .ok o => .ok o
  | .error e =>
    if e.caught4 then .error (.valueErr ("Malformed response data: " ++ e.msgOf))
    else .error e

/-- The message of the `TypeError` raised by `WeatherData(..., forecast_time=...)`:
the dataclass in `models.py` declares no `forecast_time` field, so the
constructor call rejects the keyword argument. -/
def unexpectedKwarg : String :=
  "WeatherData.__init__() got an unexpected keyword argument \x27forecast_time\x27"

/-- One iteration of the forecast loop body: validates the interval entry and
evaluates the keyword arguments of the `WeatherData(...)` call in source order.
Because `models.WeatherData` has no `forecast_time` field the constructor call
itself always raises `TypeError`, so this function never returns a value. -/
def parseForecastItem (item : PyVal) : Except PyErr ParsedObs := do
  checkRequired requiredItem item "Missing required field in forecast item: "
  let main ← pyGetD item "main" (.pdict [])
  let weather ← pyGetItem0 (← pyGetD item "weather" (.plist [.pdict []]))
  let wind ← pyGetD item "wind" (.pdict [])
  let clouds ← pyGetD item "clouds" (.pdict [])
  if !pyTruthy weather then .error (.valueErr "No weather description in forecast item") else
  let _ ← pyFromTimestamp (← pyGetItemS item "dt")
  let _ ← pyFloat (← pyGetD main "temp" (.pint 0))
  let _ ← pyFloat (← pyGetD main "feels_like" (.pint 0))
  let _ ← pyFloat (← pyGetD main "temp_min" (.pint 0))
  let _ ← pyFloat (← pyGetD main "temp_max" (.pint 0))
  let _ ← pyInt (← pyGetD main "pressure" (.pint 0))
  let _ ← pyInt (← pyGetD main "humidity" (.pint 0))
  let _ ← pyGetD weather "description" (.pstr "No description")
  let _ ← pyFloat (← pyGetD wind "speed" (.pint 0))
  let _ ← pyInt (← pyGetD clouds "all" (.pint 0))
  .error (.typeErr unexpectedKwarg)

/-- The `for item in data["list"]` loop: a failed item whose exception is in the
inner except-tuple is skipped with a printed warning; other exceptions
propagate. -/
def forecastLoop (items : List PyVal) (acc : List ParsedObs) : Except PyErr (List ParsedObs) :=
  match items with
  | [] => .ok acc
  | item :: rest =>
    match parseForecastItem item with
    | .ok f => forecastLoop rest (acc ++ [f])
    | .error e => if e.caught4 then forecastLoop rest acc else .error e

/-- Body of the outer `try:` block of `_parse_forecast_data`. -/
def parseForecastInner (data : PyVal) : Except PyErr (List ParsedObs) := do
  let hasList ← pyContains "list" data
  if !hasList then .error (.valueErr "Missing \x27list\x27 field in forecast response") else
  let hasCity ← pyContains "city" data
  if !hasCity then .error (.valueErr "Missing \x27city\x27 field in forecast response") else
  let cityData ← pyGetItemS data "city"
  let _cityName ← pyGetD cityData "name" (.pstr "Unknown")
  let _country ← pyGetD cityData "country" (.pstr "Unknown")
  let items ← pyIterate (← pyGetItemS data "list")
  let forecasts ← forecastLoop items []
  if forecasts.isEmpty then .error (.valueErr "No valid forecast data could be parsed") else
  .ok forecasts

/-- `_parse_forecast_data`: the inner body wrapped by
`except (KeyError, ValueError, TypeError) as e:
  raise ValueError(f"Malformed forecast response data: {str(e)}")`. -/
def parse_forecast_data (data : PyVal) : Except PyErr (List ParsedObs) :=
  match parseForecastInner data with
  | .ok fs => .ok fs
  | .error e =>
    if e.caught3 then .error (.valueErr ("Malformed forecast response data: " ++ e.msgOf))
    else .error e

/-! ### The remote fetch client (`fetch_current_weather`) -/

/-- Outcome of `requests.get(...)`: timeout, transport failure, or a response
with a status code, a reason phrase and a body (`none` models a body that
`response.json()` rejects). -/
inductive HttpAttempt where
  | timedOut
  | connFailed (detail : String)
  | got (status : Nat) (reason : String) (body : Option PyVal)

/-- The exception surfaced to the caller of `fetch_current_weather`, by Python
exception class. -/
inductive FetchErr where
  | timeoutExc (msg : String)
  | connExc (msg : String)
  | apiExc (msg : String)
  | valueExc (msg : String)
  | pyExc (e : PyErr)

/-- `config.API_TIMEOUT`. -/
def API_TIMEOUT : Nat := 10

/-- `location = f"{city},{country_code}" if country_code else city` — note the
truthiness test: an empty country code composes like an absent one. -/
def composeLocation (city : String) (cc : Option String) : String :=
  match cc with
  | some c => if c = "" then city else city ++ "," ++ c
  | none => city

/-- The message of the `requests.HTTPError` built by `raise_for_status`. -/
def httpErrText (status : Nat) (reason url : String) : String :=
  toString status ++ (if status < 500 then " Client Error: " else " Server Error: ")
    ++ reason ++ " for url: " ++ url

/-- The message of the `json.JSONDecodeError` (a `ValueError`) raised by
`response.json()` on an undecodable body. -/
def jsonDecodeFailText : String := "Expecting value: line 1 column 1 (char 0)"

/-- `fetch_current_weather`, as a function of the transport outcome.
`raise_for_status` raises `HTTPError` exactly for statuses in `[400, 600)`;
the except-clauses then branch on the status code.  On a non-raising status the
body is decoded and handed to `_parse_weather_data`, whose `ValueError` is
re-wrapped by the `except ValueError` clause at the end of the method. -/
def fetch_current_weather (city : String) (countryCode : Option String)
    (attempt : HttpAttempt) (url : String) (now : Int) : Except FetchErr ParsedObs :=
  let location := composeLocation city countryCode
  match attempt with
  | .timedOut =>
    .error (.timeoutExc ("Request timed out after " ++ toString API_TIMEOUT
      ++ " seconds. Please check your internet connection and try again."))
  | .connFailed d =>
    .error (.connExc ("Network connection failed: " ++ d ++ ". Please check your internet connection."))
  | .got status reason body =>
    if 400 ≤ status ∧ status < 600 then
      if status = 404 then .error (.apiExc ("City \x27" ++ location ++ "\x27 not found."))
      else if status = 401 then .error (.apiExc "Invalid API key. Please check your configuration.")
      else if status = 429 then .error (.apiExc "API rate limit exceeded. Please try again later.")
      else .error (.apiExc ("HTTP error " ++ toString status ++ ": " ++ httpErrText status reason url))
    else
      match body with
      | none => .error (.valueExc ("Invalid JSON response: " ++ jsonDecodeFailText))
      | some data =>
        match parse_weather_data data now with
        | .ok o => .ok o
        | .error (.valueErr m) => .error (.valueExc ("Invalid JSON response: " ++ m))
        | .error (.keyErr m) => .error (.valueExc ("Missing required field in response: \x27" ++ m ++ "\x27"))
        | .error e => .error (.pyExc e)

/-! ### The SQLite store (`database.py`) -/

/-- One row of the `weather` table, column types as declared by `_init_db`. -/
structure Row where
  id : Nat
  city : String
  country : String
  temperature : Rat
  feels_like : Rat
  temp_min : Rat
  temp_max : Rat
  pressure : Int
  humidity : Int
  description : String
  wind_speed : Rat
  clouds : Int
  timestamp : Int
deriving DecidableEq

/-- A `WeatherData` value handed to `save_weather` (its `id` is `None` and is
never read by the insert, so it is omitted). -/
structure WeatherData where
  city : String
  country : String
  temperature : Rat
  feels_like : Rat
  temp_min : Rat
  temp_max : Rat
  pressure : Int
  humidity : Int
  description : String
  wind_speed : Rat
  clouds : Int
  timestamp : Int
deriving DecidableEq

/-- The `weather` table: rows in rowid (insertion) order, plus the
AUTOINCREMENT counter for the next id. -/
structure Store where
  rows : List Row
  nextId : Nat
deriving DecidableEq

/-- A freshly created database: no rows, AUTOINCREMENT starts at 1. -/
def emptyStore : Store := ⟨[], 1⟩

/-- `config.CACHE_DURATION` (seconds). -/
def CACHE_DURATION : Int := 1800

/-- SQLite `LIKE` with explicit fuel (every recursive call shrinks
`pattern.length + s.length`, so `pattern.length + s.length + 1` fuel is exact;
the fuel only makes the recursion structural so that the kernel can evaluate
it).  `%` matches any run, `_` matches one character, and ordinary characters
compare ASCII-case-insensitively, as SQLite does by default. -/
def likeFuel : Nat → List Char → List Char → Bool
  | 0, _, _ => false
  | _ + 1, [], s => s.isEmpty
  | fuel + 1, p :: ps, s =>
    if p = '%' then
      likeFuel fuel ps s ||
        (match s with
         | [] => false
         | _ :: s2 => likeFuel fuel (p :: ps) s2)
    else if p = '_' then
      (match s with
       | [] => false
       | _ :: s2 => likeFuel fuel ps s2)
    else
      (match s with
       | [] => false
       | c :: s2 => (p.toLower == c.toLower) && likeFuel fuel ps s2)

/-- `s LIKE pattern` on strings. -/
def sqlLike (pattern s : String) : Bool :=
  likeFuel (pattern.toList.length + s.toList.length + 1) pattern.toList s.toList

/-- The `ON CONFLICT(city, country)` test of the upsert in `save_weather`. -/
def keyConflict (w : WeatherData) (r : Row) : Bool :=
  r.city == w.city && r.country == w.country

/-- The `DO UPDATE SET` arm: every listed column is overwritten from the
excluded row; `id`, `city` and `country` are untouched. -/
def applyUpdate (w : WeatherData) (r : Row) : Row :=
  if keyConflict w r then
    { r with temperature := w.temperature, feels_like := w.feels_like,
             temp_min := w.temp_min, temp_max := w.temp_max,
             pressure := w.pressure, humidity := w.humidity,
             description := w.description, wind_speed := w.wind_speed,
             clouds := w.clouds, timestamp := w.timestamp }
  else r

/-- The row built by the insert arm of the upsert. -/
def insertedRow (w : WeatherData) (i : Nat) : Row :=
  ⟨i, w.city, w.country, w.temperature, w.feels_like, w.temp_min, w.temp_max,
   w.pressure, w.humidity, w.description, w.wind_speed, w.clouds, w.timestamp⟩

/-- `save_weather`.  The INSERT has no RETURNING clause, so
`cursor.fetchone()` is `None` and the function returns `cursor.lastrowid`.
Each call opens a fresh connection, and `sqlite3_last_insert_rowid` on a
connection that has not inserted anything is 0 — so when the upsert takes the
`DO UPDATE` arm the function returns 0, not the id of the updated row.  On the
insert arm it returns the AUTOINCREMENT id of the new row. -/
def save_weather (st : Store) (w : WeatherData) : Store × Nat :=
  if st.rows.any (keyConflict w) then
    ({ rows := st.rows.map (applyUpdate w), nextId := st.nextId }, 0)
  else
    ({ rows := st.rows ++ [insertedRow w st.nextId], nextId := st.nextId + 1 }, st.nextId)

/-- Folds a batch of observations through `save_weather`, as the `forecast`
command of `cli.py` does with the parsed forecast list. -/
def saveAll (st : Store) (ws : List WeatherData) : Store :=
  ws.foldl (fun s w => (save_weather s w).1) st

/-- The WHERE clause of `get_cached_weather`:
`city like ? AND [country = ? AND] timestamp > ?` with the raw city argument as
the LIKE pattern and `cache_cutoff = now - CACHE_DURATION`.  The country clause
is only added `if country:` — an empty string behaves like an absent one. -/
def cacheMatch (city : String) (country : Option String) (cutoff : Int) (r : Row) : Bool :=
  sqlLike city r.city &&
    (match country with
     | some c => if c = "" then true else r.country == c
     | none => true) &&
    decide (cutoff < r.timestamp)

/-- `get_cached_weather`: the SELECT has no ORDER BY, so SQLite hands back
matching rows in table-scan (rowid) order and `fetchone()` takes the first. -/
def get_cached_weather (st : Store) (city : String) (country : Option String)
    (now : Int) : Option Row :=
  (st.rows.filter (cacheMatch city country (now - CACHE_DURATION))).head?

/-- `get_weather_by_id`. -/
def get_weather_by_id (st : Store) (recordId : Nat) : Option Row :=
  st.rows.find? (fun r => r.id == recordId)

/-- The WHERE clause assembled by `list_weather`.  Each filter is added only if
its argument is truthy (`if city:`, `if country:`) or non-None
(`if min_temp is not None:`), and the city filter wraps the argument in
`%...%`. -/
def listPred (city country : Option String) (minTemp maxTemp : Option Rat) (r : Row) : Bool :=
  (match city with
   | some c => if c = "" then true else sqlLike ("%" ++ c ++ "%") r.city
   | none => true) &&
  (match country with
   | some c => if c = "" then true else r.country == c
   | none => true) &&
  (match minTemp with
   | some m => decide (m ≤ r.temperature)
   | none => true) &&
  (match maxTemp with
   | some m => decide (r.temperature ≤ m)
   | none => true)

/-- `ORDER BY timestamp DESC` sorts by non-increasing capture timestamp. -/
def tsDesc (a b : Row) : Prop := b.timestamp ≤ a.timestamp

instance : DecidableRel tsDesc := fun a b => Int.decLe b.timestamp a.timestamp

instance : IsTotal Row tsDesc := ⟨fun a b => le_total b.timestamp a.timestamp⟩

instance : IsTrans Row tsDesc := ⟨fun _ _ _ h1 h2 => le_trans h2 h1⟩

/-- `list_weather`: filter, sort by timestamp descending, apply `LIMIT ?`.
SQLite treats a negative LIMIT as "no limit". -/
def list_weather (st : Store) (city country : Option String)
    (minTemp maxTemp : Option Rat) (limit : Int) : List Row :=
  if limit < 0 then
    List.insertionSort tsDesc (st.rows.filter (listPred city country minTemp maxTemp))
  else
    (List.insertionSort tsDesc (st.rows.filter (listPred city country minTemp maxTemp))).take
      limit.toNat

/-- The `UNIQUE(city, country)` constraint of the `weather` table: no two rows
share a location key. -/
def uniqueKeys (st : Store) : Prop :=
  st.rows.Pairwise (fun a b => a.city ≠ b.city ∨ a.country ≠ b.country)

/-- Row-level test for a concrete location key. -/
def keyPred (c co : String) (r : Row) : Bool :=
  r.city == c && r.country == co

/-- Number of rows holding a given location key. -/
def countKey (st : Store) (c co : String) : Nat :=
  (st.rows.filter (keyPred c co)).length

/-- Row content agrees with an observation on every column written by the
upsert, key columns included. -/
def holdsObs (r : Row) (w : WeatherData) : Prop :=
  r.city = w.city ∧ r.country = w.country ∧ r.temperature = w.temperature ∧
  r.feels_like = w.feels_like ∧ r.temp_min = w.temp_min ∧ r.temp_max = w.temp_max ∧
  r.pressure = w.pressure ∧ r.humidity = w.humidity ∧ r.description = w.description ∧
  r.wind_speed = w.wind_speed ∧ r.clouds = w.clouds ∧ r.timestamp = w.timestamp

/-! ### Auxiliary notions used by the claim statements -/

/-- A leaf that is absent or arrives as a JSON number (so that `float()`/`int()`
coercion cannot raise). -/
def NumOrAbsent (v : Option PyVal) : Prop :=
  v = none ∨ (∃ n : Int, v = some (.pint n)) ∨ (∃ q : Rat, v = some (.pfloat q))

/-- The first required top-level key missing from a payload, in the order the
validation loop checks them. -/
def firstMissing (es : List (String × PyVal)) : Option String :=
  requiredTop.find? (fun g => (lookupKey es g).isNone)

/-- Does a fetch result carry an `APIError` (the class used for the
NotFound/Unauthorized/RateLimited/UpstreamError taxonomy)? -/
def errIsApi : Except FetchErr ParsedObs → Bool
  | .error (.apiExc _) => true
  | _ => false

/-! ### Concrete inputs used by counterexamples and witnesses -/

/-- A fully well-formed forecast interval entry. -/
def goodItem : PyVal := .pdict [("dt", .pint 1700000000),
  ("main", .pdict [("temp", .pfloat 20)]),
  ("weather", .plist [.pdict [("description", .pstr "clear sky")]]),
  ("wind", .pdict [("speed", .pfloat 3)]),
  ("clouds", .pdict [("all", .pint 10)])]

/-- A malformed forecast interval entry: its `dt` key is missing. -/
def badItem : PyVal := .pdict [("main", .pdict [("temp", .pfloat 21)]),
  ("weather", .plist [.pdict [("description", .pstr "rain")]]),
  ("wind", .pdict [("speed", .pfloat 4)]),
  ("clouds", .pdict [("all", .pint 20)])]

/-- A forecast payload with N = 2 intervals of which exactly K = 1 satisfies the
per-interval required-field rule. -/
def goodForecast : PyVal := .pdict [
  ("city", .pdict [("name", .pstr "Tokyo"), ("country", .pstr "JP")]),
  ("list", .plist [goodItem, badItem])]

/-- A complete current-weather payload whose optional leaves are all absent. -/
def obsPayload : PyVal := .pdict [("name", .pstr "London"),
  ("sys", .pdict []), ("main", .pdict []),
  ("weather", .plist [.pdict [("main", .pstr "Rain")]]),
  ("wind", .pdict []), ("clouds", .pdict [])]

/-- A complete current-weather payload whose condition entry carries an
*empty* description string. -/
def c5Payload : PyVal := .pdict [("name", .pstr "X"),
  ("sys", .pdict []), ("main", .pdict []),
  ("weather", .plist [.pdict [("description", .pstr "")]]),
  ("wind", .pdict []), ("clouds", .pdict [])]

/-- Two current-weather observations for the same (city, country) key captured
at different instants. -/
def cw1 : WeatherData := ⟨"London", "GB", 20, 19, 18, 21, 1000, 50, "clear sky", 3, 10, 100⟩

/-- Second observation for the `cw1` key. -/
def cw2 : WeatherData := ⟨"London", "GB", 22, 21, 20, 23, 1001, 55, "few clouds", 4, 20, 200⟩

/-- Forecast observations sharing one location key (distinct forecast moments,
as produced by a repaired forecast parser feeding `cli.forecast`). -/
def fo1 : WeatherData := ⟨"Tokyo", "JP", 20, 19, 18, 21, 1000, 50, "clear sky", 3, 10, 100⟩

/-- Second forecast observation for the `fo1` key. -/
def fo2 : WeatherData := ⟨"Tokyo", "JP", 22, 21, 20, 23, 1001, 55, "few clouds", 4, 20, 200⟩

/-- Third forecast observation for the `fo1` key. -/
def fo3 : WeatherData := ⟨"Tokyo", "JP", 24, 23, 22, 25, 1002, 60, "rain", 5, 30, 300⟩

/-- A stored row whose city differs from the row below only in case. -/
def rowA : Row := ⟨1, "London", "GB", 20, 20, 20, 20, 1000, 50, "d", 3, 10, 100⟩

/-- A later-captured row matching the same LIKE pattern as `rowA`. -/
def rowB : Row := ⟨2, "london", "GB", 21, 21, 21, 21, 1000, 50, "d", 3, 10, 200⟩

/-- A store holding `rowA` and `rowB`. -/
def exDb : Store := ⟨[rowA, rowB], 3⟩

/-- State of the store after persisting `cw1` into an empty database. -/
def st1 : Store := (save_weather emptyStore cw1).1

/-! ### Helper lemmas -/

theorem likeFuel_self (p : List Char) : ∀ f : Nat, 2 * p.length < f → likeFuel f p p = true := by
  induction p with
  | nil =>
    intro f hf
    match f, hf with
    | f + 1, _ => rfl
  | cons c ps ih =>
    intro f hf
    have hlen : 2 * (c :: ps).length = 2 * ps.length + 2 := by simp [List.length_cons]; omega
    match f, hf with
    | f1 + 1, hf =>
      by_cases hc : c = '%'
      · subst hc
        obtain ⟨f2, rfl⟩ : ∃ f2, f1 = f2 + 1 := ⟨f1 - 1, by omega⟩
        have h2 : 2 * ps.length < f2 := by omega
        simp [likeFuel]
        exact Or.inr (Or.inl (ih f2 h2))
      · by_cases hc2 : c = '_'
        · subst hc2
          have h2 : 2 * ps.length < f1 := by omega
          simp [likeFuel, ih f1 h2]
        · have h2 : 2 * ps.length < f1 := by omega
          simp [likeFuel, hc, hc2, ih f1 h2]

theorem sqlLike_self (s : String) : sqlLike s s = true := by
  unfold sqlLike
  exact likeFuel_self s.toList _ (by omega)

theorem applyUpdate_id (w : WeatherData) (r : Row) : (applyUpdate w r).id = r.id := by
  unfold applyUpdate; split <;> rfl

theorem applyUpdate_city (w : WeatherData) (r : Row) : (applyUpdate w r).city = r.city := by
  unfold applyUpdate; split <;> rfl

theorem applyUpdate_country (w : WeatherData) (r : Row) : (applyUpdate w r).country = r.country := by
  unfold applyUpdate; split <;> rfl

theorem keyPred_applyUpdate (c co : String) (w : WeatherData) (r : Row) :
    keyPred c co (applyUpdate w r) = keyPred c co r := by
  simp [keyPred, applyUpdate_city, applyUpdate_country]

theorem keyPred_eq (c co : String) (r : Row) (h : keyPred c co r = true) :
    r.city = c ∧ r.country = co := by
  simpa [keyPred] using h

theorem filter_key_le_one (c co : String) (rs : List Row)
    (h : rs.Pairwise (fun a b => a.city ≠ b.city ∨ a.country ≠ b.country)) :
    (rs.filter (keyPred c co)).length ≤ 1 := by
  induction rs with
  | nil => simp
  | cons a l ih =>
    rw [List.pairwise_cons] at h
    by_cases ha : keyPred c co a = true
    · have hac := keyPred_eq c co a ha
      have hrest : l.filter (keyPred c co) = [] := by
        rw [List.filter_eq_nil_iff]
        intro b hb hbp
        have hbc := keyPred_eq c co b hbp
        rcases h.1 b hb with hne | hne
        · exact hne (by rw [hac.1, hbc.1])
        · exact hne (by rw [hac.2, hbc.2])
      simp [List.filter_cons, ha, hrest]
    · simp only [List.filter_cons, ha, if_false, Bool.false_eq_true]
      exact ih h.2

theorem save_weather_conflict (st : Store) (w : WeatherData)
    (h : st.rows.any (keyConflict w) = true) :
    save_weather st w = ({ rows := st.rows.map (applyUpdate w), nextId := st.nextId }, 0) := by
  unfold save_weather; rw [if_pos h]

theorem save_weather_fresh (st : Store) (w : WeatherData)
    (h : st.rows.any (keyConflict w) = false) :
    save_weather st w =
      ({ rows := st.rows ++ [insertedRow w st.nextId], nextId := st.nextId + 1 }, st.nextId) := by
  unfold save_weather; rw [if_neg (by simp [h])]

theorem save_countKey (st : Store) (w : WeatherData) (hu : uniqueKeys st) :
    countKey (save_weather st w).1 w.city w.country = 1 := by
  by_cases h : st.rows.any (keyConflict w) = true
  · rw [save_weather_conflict st w h]
    unfold countKey
    show ((st.rows.map (applyUpdate w)).filter (keyPred w.city w.country)).length = 1
    rw [List.filter_map, List.length_map]
    have hk : (keyPred w.city w.country ∘ applyUpdate w) = keyPred w.city w.country := by
      funext r; simp [Function.comp, keyPred_applyUpdate]
    rw [hk]
    have hle := filter_key_le_one w.city w.country st.rows hu
    obtain ⟨r, hr, hrc⟩ := List.any_eq_true.mp h
    have hmem : r ∈ st.rows.filter (keyPred w.city w.country) := by
      rw [List.mem_filter]; exact ⟨hr, hrc⟩
    have hpos : 0 < (st.rows.filter (keyPred w.city w.country)).length :=
      List.length_pos.mpr (fun hnil => by rw [hnil] at hmem; cases hmem)
    omega
  · have h0 : st.rows.any (keyConflict w) = false := by simpa using h
    rw [save_weather_fresh st w h0]
    unfold countKey
    show ((st.rows ++ [insertedRow w st.nextId]).filter (keyPred w.city w.country)).length = 1
    have hnil : st.rows.filter (keyPred w.city w.country) = [] := by
      rw [List.filter_eq_nil_iff]
      intro r hr
      have := (List.any_eq_false.mp h0) r hr
      simp [keyConflict] at this
      simp [keyPred]
      exact this
    simp [List.filter_append, hnil, keyPred, insertedRow]

theorem save_preserves_uniqueKeys (st : Store) (w : WeatherData) (hu : uniqueKeys st) :
    uniqueKeys (save_weather st w).1 := by
  by_cases h : st.rows.any (keyConflict w) = true
  · rw [save_weather_conflict st w h]
    exact hu.map _ (fun a b hab => by
      simp only [applyUpdate_city, applyUpdate_country]; exact hab)
  · have h0 : st.rows.any (keyConflict w) = false := by simpa using h
    rw [save_weather_fresh st w h0]
    unfold uniqueKeys
    rw [List.pairwise_append]
    refine ⟨hu, by simp, ?_⟩
    intro a ha b hb
    simp only [List.mem_singleton] at hb
    subst hb
    have hcf := (List.any_eq_false.mp h0) a ha
    simp [keyConflict] at hcf
    simp [insertedRow]
    tauto

theorem except_bind_ok {ε α β : Type} (a : α) (f : α → Except ε β) :
    ((Except.ok a : Except ε α) >>= f) = f a := rfl

theorem leadsWith_append (a c : List Char) : leadsWith a (a ++ c) = true := by
  induction a with
  | nil => rfl
  | cons x xs ih => simp [leadsWith, ih]

theorem occursIn_nil (l : List Char) : occursIn [] l = true := by
  cases l <;> simp [occursIn, leadsWith]

theorem occursIn_append (a b c : List Char) : occursIn b (a ++ (b ++ c)) = true := by
  induction a with
  | nil =>
    cases b with
    | nil => simp [occursIn_nil]
    | cons y ys =>
      show occursIn (y :: ys) ((y :: ys) ++ c) = true
      have hl := leadsWith_append (y :: ys) c
      simp only [List.cons_append] at hl
      simp [occursIn, hl]
  | cons x xs ih =>
    show occursIn b (x :: (xs ++ (b ++ c))) = true
    simp [occursIn, ih]

theorem strOccurs_mid (a b c : String) : strOccurs b (a ++ b ++ c) = true := by
  unfold strOccurs
  have h1 : (a ++ b ++ c).toList = a.toList ++ (b.toList ++ c.toList) := by
    simp [String.toList, String.data_append]
  rw [h1]
  exact occursIn_append _ _ _

theorem pyFloat_default (v : Option PyVal) (h : NumOrAbsent v) :
    ∃ q : Rat, pyFloat (v.getD (.pint 0)) = .ok q ∧ (v = none → q = 0) := by
  rcases h with h | ⟨n, h⟩ | ⟨q, h⟩
  · subst h; exact ⟨0, rfl, fun _ => rfl⟩
  · subst h; exact ⟨n, rfl, fun hh => by cases hh⟩
  · subst h; exact ⟨q, rfl, fun hh => by cases hh⟩

theorem pyInt_default (v : Option PyVal) (h : NumOrAbsent v) :
    ∃ n : Int, pyInt (v.getD (.pint 0)) = .ok n ∧ (v = none → n = 0) := by
  rcases h with h | ⟨n, h⟩ | ⟨q, h⟩
  · subst h; exact ⟨0, rfl, fun _ => rfl⟩
  · subst h; exact ⟨n, rfl, fun hh => by cases hh⟩
  · subst h; exact ⟨ratTrunc q, rfl, fun hh => by cases hh⟩

theorem checkRequired_all_present (fs : List String) (es : List (String × PyVal)) (pre : String)
    (h : ∀ f ∈ fs, (lookupKey es f).isSome = true) :
    checkRequired fs (.pdict es) pre = .ok () := by
  induction fs with
  | nil => rfl
  | cons g rest ih =>
    have hg := h g (List.mem_cons_self g rest)
    simp only [checkRequired, pyContains, hg]
    exact ih (fun f hf => h f (List.mem_cons_of_mem g hf))

theorem save_written (st : Store) (w : WeatherData) :
    ∃ r ∈ (save_weather st w).1.rows, holdsObs r w := by
  by_cases h : st.rows.any (keyConflict w) = true
  · rw [save_weather_conflict st w h]
    obtain ⟨r, hr, hrc⟩ := List.any_eq_true.mp h
    refine ⟨applyUpdate w r, List.mem_map_of_mem _ hr, ?_⟩
    have hrk := keyPred_eq w.city w.country r hrc
    unfold applyUpdate
    rw [if_pos hrc]
    simp [holdsObs, hrk.1, hrk.2]
  · have h0 : st.rows.any (keyConflict w) = false := by simpa using h
    rw [save_weather_fresh st w h0]
    exact ⟨insertedRow w st.nextId, by simp, by simp [holdsObs, insertedRow]⟩

/-! ### Claim theorems -/

/-- C7: repeated `save_weather` calls with identical content for one
(city, country) key leave exactly one row for that key — after the first call
and after the second — and the surviving row carries the full content of the
latest call, its capture timestamp included. -/
theorem upsert_idempotent (st : Store) (w : WeatherData) (t1 t2 : Int) (hu : uniqueKeys st) :
    countKey (save_weather st { w with timestamp := t1 }).1 w.city w.country = 1 ∧
    countKey (save_weather (save_weather st { w with timestamp := t1 }).1
      { w with timestamp := t2 }).1 w.city w.country = 1 ∧
    ∃ r ∈ (save_weather (save_weather st { w with timestamp := t1 }).1
      { w with timestamp := t2 }).1.rows, holdsObs r { w with timestamp := t2 } := by
  have h1 := save_countKey st { w with timestamp := t1 } hu
  have hu1 := save_preserves_uniqueKeys st { w with timestamp := t1 } hu
  have h2 := save_countKey (save_weather st { w with timestamp := t1 }).1
    { w with timestamp := t2 } hu1
  exact ⟨h1, h2, save_written _ _⟩

/-- Witness for C7 at a concrete store and observation. -/
theorem upsert_idempotent_witness :
    countKey (save_weather (save_weather emptyStore { cw1 with timestamp := 100 }).1
      { cw1 with timestamp := 200 }).1 "London" "GB" = 1 :=
  (upsert_idempotent emptyStore cw1 100 200 List.Pairwise.nil).2.1

/-- C2 (counterexample): writing the M = 2 forecast observations `fo1`, `fo2`
— which share the (Tokyo, JP) key — through the cache write path leaves 1 row
for that key, not the M = 2 rows the claim asserts. -/
theorem forecast_rows_not_appended :
    countKey (saveAll emptyStore [fo1, fo2]) "Tokyo" "JP" = 1 ∧ (1 : Nat) ≠ 2 := by decide

/-- C2 (amended): every observation — forecast rows included — goes through the
same `ON CONFLICT(city, country) DO UPDATE` upsert, so after writing any
non-empty batch of observations sharing one location key the store holds
exactly one row for that key. -/
theorem forecast_saves_collapse (st : Store) (ws : List WeatherData) (c co : String)
    (hu : uniqueKeys st) (hne : ws ≠ [])
    (hk : ∀ w ∈ ws, w.city = c ∧ w.country = co) :
    countKey (saveAll st ws) c co = 1 := by
  have main : ∀ (l : List WeatherData) (s : Store), uniqueKeys s → l ≠ [] →
      (∀ w ∈ l, w.city = c ∧ w.country = co) → countKey (saveAll s l) c co = 1 := by
    intro l
    induction l with
    | nil => intro s _ hn _; exact absurd rfl hn
    | cons w rest ih =>
      intro s hus _ hkl
      have hw := hkl w (List.mem_cons_self w rest)
      by_cases hr : rest = []
      · subst hr
        show countKey (save_weather s w).1 c co = 1
        rw [← hw.1, ← hw.2]
        exact save_countKey s w hus
      · show countKey (saveAll (save_weather s w).1 rest) c co = 1
        exact ih (save_weather s w).1 (save_preserves_uniqueKeys s w hus) hr
          (fun x hx => hkl x (List.mem_cons_of_mem w hx))
  exact main ws st hu hne hk

/-- Witness for the amended C2 with a three-element forecast batch. -/
theorem forecast_saves_collapse_witness :
    countKey (saveAll emptyStore [fo1, fo2, fo3]) "Tokyo" "JP" = 1 :=
  forecast_saves_collapse emptyStore [fo1, fo2, fo3] "Tokyo" "JP"
    List.Pairwise.nil (by simp) (by decide)

/-- C4 (code bug): the first write of the (London, GB) key returns id 1 and
`get_weather_by_id 1` finds it; the second, replacing write of the same key
returns 0 — the `lastrowid` of a connection that inserted nothing — and
`get_weather_by_id 0` misses, while the replaced observation actually lives in
the row with id 1. -/
theorem save_weather_lastrowid_bug :
    (save_weather emptyStore cw1).2 = 1 ∧
    get_weather_by_id (save_weather emptyStore cw1).1 1 = some (insertedRow cw1 1) ∧
    (save_weather (save_weather emptyStore cw1).1 cw2).2 = 0 ∧
    get_weather_by_id (save_weather (save_weather emptyStore cw1).1 cw2).1 0 = none ∧
    get_weather_by_id (save_weather (save_weather emptyStore cw1).1 cw2).1 1 =
      some ⟨1, "London", "GB", 22, 21, 20, 23, 1001, 55, "few clouds", 4, 20, 200⟩ := by
  decide

/-- C10: a write whose key is already present takes the `DO UPDATE` arm, which
leaves the id column of every row untouched: the stored id sequence is
unchanged, the key row keeps its id while every other column is replaced, and
rows with other keys are untouched. -/
theorem upsert_id_stable (st : Store) (w : WeatherData)
    (hex : ∃ r ∈ st.rows, keyConflict w r = true) :
    ((save_weather st w).1.rows.map Row.id = st.rows.map Row.id) ∧
    (∀ r ∈ st.rows, keyConflict w r = true →
      ∃ r2 ∈ (save_weather st w).1.rows, r2.id = r.id ∧ r2.city = r.city ∧
        r2.country = r.country ∧ r2.temperature = w.temperature ∧
        r2.feels_like = w.feels_like ∧ r2.temp_min = w.temp_min ∧
        r2.temp_max = w.temp_max ∧ r2.pressure = w.pressure ∧
        r2.humidity = w.humidity ∧ r2.description = w.description ∧
        r2.wind_speed = w.wind_speed ∧ r2.clouds = w.clouds ∧
        r2.timestamp = w.timestamp) ∧
    (∀ r ∈ st.rows, keyConflict w r = false → r ∈ (save_weather st w).1.rows) := by
  have hany : st.rows.any (keyConflict w) = true := List.any_eq_true.mpr hex
  rw [save_weather_conflict st w hany]
  refine ⟨?_, ?_, ?_⟩
  · show (st.rows.map (applyUpdate w)).map Row.id = st.rows.map Row.id
    simp [List.map_map, Function.comp, applyUpdate_id]
  · intro r hr hc
    refine ⟨applyUpdate w r, List.mem_map_of_mem _ hr, applyUpdate_id w r,
      applyUpdate_city w r, applyUpdate_country w r, ?_⟩
    unfold applyUpdate
    rw [if_pos hc]
    simp
  · intro r hr hc
    have hfix : applyUpdate w r = r := by unfold applyUpdate; rw [if_neg (by simp [hc])]
    exact hfix ▸ List.mem_map_of_mem _ hr

/-- Witness for C10: replacing the (London, GB) row leaves the id sequence of
the store unchanged. -/
theorem upsert_id_stable_witness :
    (save_weather st1 cw2).1.rows.map Row.id = st1.rows.map Row.id :=
  (upsert_id_stable st1 cw2 ⟨insertedRow cw1 1, by decide, by decide⟩).1

/-- C3 (amended): `get_cached_weather` misses iff no stored row passes the
WHERE clause (city LIKE pattern, exact country when supplied non-empty,
capture timestamp strictly inside the 1800-second window); a hit is a stored
row passing that clause — the *first* in rowid order, not necessarily the most
recently captured; once every row is at least 1800 seconds old the lookup
misses; and a lookup right after an upsert whose city pattern matches no
pre-existing row returns exactly the just-written row. -/
theorem lookup_fresh_spec (st : Store) (city : String) (country : Option String) (now : Int) :
    (get_cached_weather st city country now = none ↔
      ∀ r ∈ st.rows, cacheMatch city country (now - CACHE_DURATION) r = false) ∧
    (∀ r, get_cached_weather st city country now = some r →
      r ∈ st.rows ∧ cacheMatch city country (now - CACHE_DURATION) r = true) ∧
    ((∀ r ∈ st.rows, r.timestamp + CACHE_DURATION ≤ now) →
      get_cached_weather st city country now = none) ∧
    (∀ w : WeatherData, (∀ r ∈ st.rows, sqlLike w.city r.city = false) →
      now - CACHE_DURATION < w.timestamp →
      get_cached_weather (save_weather st w).1 w.city (some w.country) now =
        some (insertedRow w st.nextId)) := by
  refine ⟨?_, ?_, ?_, ?_⟩
  · unfold get_cached_weather
    rw [List.head?_eq_none_iff, List.filter_eq_nil_iff]
    simp only [Bool.not_eq_true]
  · intro r h
    unfold get_cached_weather at h
    have hm := List.mem_of_mem_head? h
    rw [List.mem_filter] at hm
    exact hm
  · intro hall
    unfold get_cached_weather
    rw [List.head?_eq_none_iff, List.filter_eq_nil_iff]
    intro r hr hc
    simp only [cacheMatch, Bool.and_eq_true, decide_eq_true_eq] at hc
    have hts := hall r hr
    omega
  · intro w hlike hfresh
    have hconf : st.rows.any (keyConflict w) = false := by
      rw [List.any_eq_false]
      intro r hr
      by_cases hcity : r.city = w.city
      · intro _
        have hself : sqlLike w.city r.city = true := by
          rw [hcity]; exact sqlLike_self w.city
        rw [hlike r hr] at hself
        cases hself
      · simp [keyConflict, hcity]
    rw [save_weather_fresh st w hconf]
    unfold get_cached_weather
    show ((st.rows ++ [insertedRow w st.nextId]).filter
      (cacheMatch w.city (some w.country) (now - CACHE_DURATION))).head? = _
    rw [List.filter_append]
    have hnil : st.rows.filter (cacheMatch w.city (some w.country) (now - CACHE_DURATION)) = [] := by
      rw [List.filter_eq_nil_iff]
      intro r hr hc
      simp only [cacheMatch, Bool.and_eq_true] at hc
      rw [hlike r hr] at hc
      exact absurd hc.1.1 Bool.false_ne_true
    have hmatch : cacheMatch w.city (some w.country) (now - CACHE_DURATION)
        (insertedRow w st.nextId) = true := by
      show (sqlLike w.city w.city && _ && _) = true
      rw [sqlLike_self]
      simp only [insertedRow, Bool.true_and, Bool.and_eq_true, decide_eq_true_eq]
      refine ⟨?_, hfresh⟩
      split
      · rfl
      · simp
    rw [hnil]
    simp [List.filter_cons, hmatch]

/-- Witness for the amended C3: a lookup right after persisting `cw1` into an
empty store returns the just-written row. -/
theorem lookup_fresh_spec_witness :
    get_cached_weather (save_weather emptyStore cw1).1 "London" (some "GB") 1000 =
      some (insertedRow cw1 1) :=
  (lookup_fresh_spec emptyStore "London" (some "GB") 1000).2.2.2 cw1
    (fun r hr => absurd hr (List.not_mem_nil r)) (by decide)

/-- C3 (counterexample): with two fresh rows both matching the pattern
`london` (SQLite LIKE is ASCII-case-insensitive), the lookup returns `rowA`,
the row that was captured *earlier*, although the matching `rowB` carries a
later capture timestamp — the claim that the most-recently-captured matching
row is returned is false. -/
theorem lookup_fresh_not_most_recent :
    get_cached_weather exDb "london" (some "GB") 300 = some rowA ∧
    rowB ∈ exDb.rows ∧
    cacheMatch "london" (some "GB") (300 - CACHE_DURATION) rowB = true ∧
    rowA.timestamp < rowB.timestamp := by decide

/-- C9 (amended): for every combination of filters and every *non-negative*
limit L, `list_weather` returns at most L rows, every returned row is a stored
row passing the assembled WHERE clause (city LIKE substring — empty-string
filters are dropped by the truthiness checks — exact country, temperature
bounds), and the result is sorted by non-increasing capture timestamp. -/
theorem list_weather_spec (st : Store) (city country : Option String)
    (minTemp maxTemp : Option Rat) (limit : Int) (hL : 0 ≤ limit) :
    ((list_weather st city country minTemp maxTemp limit).length ≤ limit.toNat) ∧
    (∀ r ∈ list_weather st city country minTemp maxTemp limit,
      r ∈ st.rows ∧ listPred city country minTemp maxTemp r = true) ∧
    (list_weather st city country minTemp maxTemp limit).Pairwise tsDesc := by
  have hni : ¬(limit < 0) := by omega
  unfold list_weather
  rw [if_neg hni]
  refine ⟨List.length_take_le _ _, ?_, ?_⟩
  · intro r hr
    have hsort := (List.take_sublist _ _).mem hr
    rw [List.mem_insertionSort] at hsort
    rw [List.mem_filter] at hsort
    exact hsort
  · exact List.Pairwise.sublist (List.take_sublist _ _) (List.sorted_insertionSort tsDesc _)

/-- Witness for the amended C9 at a concrete store and limit. -/
theorem list_weather_spec_witness :
    (list_weather exDb none none none none 2).length ≤ (2 : Int).toNat :=
  (list_weather_spec exDb none none none none 2 (by decide)).1

/-- C9 (counterexample): SQLite treats a negative LIMIT as "no limit", so with
`limit = -1` the call returns both stored rows — more than the claimed bound of
at most L rows. -/
theorem list_weather_negative_limit :
    (list_weather exDb none none none none (-1)).length = 2 ∧ ¬((2 : Int) ≤ -1) := by decide

/-- C1 (code bug): `goodForecast` carries N = 2 intervals of which exactly
K = 1 (`goodItem`) satisfies the per-interval required-field rule, yet the
parser returns no observations: the `WeatherData(..., forecast_time=...)` call
raises `TypeError` for every interval because the dataclass in `models.py` has
no `forecast_time` field, so every interval — well-formed or not — is skipped
and the whole call fails with MalformedPayload ("no valid data"). -/
theorem forecast_parser_returns_nothing :
    checkRequired requiredItem goodItem "Missing required field in forecast item: " = .ok () ∧
    checkRequired requiredItem badItem "Missing required field in forecast item: " =
      .error (.valueErr "Missing required field in forecast item: dt") ∧
    parseForecastItem goodItem = .error (.typeErr unexpectedKwarg) ∧
    parse_forecast_data goodForecast =
      .error (.valueErr "Malformed forecast response data: No valid forecast data could be parsed") :=
  ⟨rfl, rfl, rfl, rfl⟩

/-- The required-key loop raises `ValueError` naming the first key, in check
order, that the payload dict lacks. -/
theorem checkRequired_first_missing (fs : List String) (es : List (String × PyVal))
    (pre : String) (f : String)
    (h : fs.find? (fun g => (lookupKey es g).isNone) = some f) :
    f ∈ fs ∧ lookupKey es f = none ∧
    checkRequired fs (.pdict es) pre = .error (.valueErr (pre ++ f)) := by
  induction fs with
  | nil => cases h
  | cons g rest ih =>
    rw [List.find?_cons] at h
    cases hgv : (lookupKey es g).isNone with
    | true =>
      rw [hgv] at h
      injection h with h
      subst h
      refine ⟨List.mem_cons_self _ _, Option.isNone_iff_eq_none.mp hgv, ?_⟩
      have hsome : (lookupKey es g).isSome = false := by
        rw [Option.isNone_iff_eq_none.mp hgv]; rfl
      simp only [checkRequired, pyContains, hsome]
      rfl
    | false =>
      rw [hgv] at h
      obtain ⟨hmem, hnone, hck⟩ := ih h
      refine ⟨List.mem_cons_of_mem _ hmem, hnone, ?_⟩
      have hsome : (lookupKey es g).isSome = true := by
        cases hv : lookupKey es g
        · rw [hv] at hgv; cases hgv
        · rfl
      simp only [checkRequired, pyContains, hsome]
      exact hck

/-- C6: a payload lacking at least one of the six required top-level keys
fails with MalformedPayload — the wrapped `ValueError` — whose message names
the (first) missing key. -/
theorem parse_missing_section (es : List (String × PyVal)) (now : Int) (f : String)
    (h : firstMissing es = some f) :
    f ∈ requiredTop ∧ lookupKey es f = none ∧
    parse_weather_data (.pdict es) now =
      .error (.valueErr ("Malformed response data: Missing required field: " ++ f)) := by
  obtain ⟨hmem, hnone, hck⟩ :=
    checkRequired_first_missing requiredTop es "Missing required field: " f h
  refine ⟨hmem, hnone, ?_⟩
  have hinner : parseWeatherInner (.pdict es) now =
      .error (.valueErr ("Missing required field: " ++ f)) := by
    unfold parseWeatherInner
    rw [hck]
    rfl
  have hassoc : "Malformed response data: " ++ ("Missing required field: " ++ f) =
      "Malformed response data: Missing required field: " ++ f := by
    rw [← String.append_assoc]
    rfl
  unfold parse_weather_data
  rw [hinner]
  simp only [PyErr.caught4, if_true, PyErr.msgOf]
  rw [hassoc]

/-- Witness for C6: a payload holding only `name` is rejected naming `sys`. -/
theorem parse_missing_section_witness :
    parse_weather_data (.pdict [("name", .pstr "X")]) 0 =
      .error (.valueErr "Malformed response data: Missing required field: sys") :=
  (parse_missing_section [("name", .pstr "X")] 0 "sys" (by rfl)).2.2

/-- C5 (amended): a payload holding the six required sections — with the
`sys`/`main`/`wind`/`clouds` sections being maps, the first entry of the
condition list a non-empty map, and every numeric leaf absent or numeric — validates
successfully; absent numeric leaves become 0, an absent country becomes
"Unknown", and the description is the placeholder exactly when the entry lacks
the key; a description *sent* by upstream is kept verbatim, even when it is
empty or coincides with the placeholder. -/
theorem parse_weather_defaults (es sysd maind windd cloudsd wEntry : List (String × PyVal))
    (wRest : List PyVal) (nameV : PyVal) (now : Int)
    (hname : lookupKey es "name" = some nameV)
    (hsys : lookupKey es "sys" = some (.pdict sysd))
    (hmain : lookupKey es "main" = some (.pdict maind))
    (hweather : lookupKey es "weather" = some (.plist (.pdict wEntry :: wRest)))
    (hwind : lookupKey es "wind" = some (.pdict windd))
    (hclouds : lookupKey es "clouds" = some (.pdict cloudsd))
    (hwne : wEntry ≠ [])
    (htemp : NumOrAbsent (lookupKey maind "temp"))
    (hfeels : NumOrAbsent (lookupKey maind "feels_like"))
    (htmin : NumOrAbsent (lookupKey maind "temp_min"))
    (htmax : NumOrAbsent (lookupKey maind "temp_max"))
    (hpress : NumOrAbsent (lookupKey maind "pressure"))
    (hhum : NumOrAbsent (lookupKey maind "humidity"))
    (hspeed : NumOrAbsent (lookupKey windd "speed"))
    (hall : NumOrAbsent (lookupKey cloudsd "all")) :
    ∃ o : ParsedObs, parse_weather_data (.pdict es) now = .ok o ∧
      o.city = nameV ∧
      o.country = (lookupKey sysd "country").getD (.pstr "Unknown") ∧
      o.description = (lookupKey wEntry "description").getD (.pstr "No description") ∧
      o.timestamp = now ∧
      (lookupKey maind "temp" = none → o.temperature = 0) ∧
      (lookupKey maind "feels_like" = none → o.feels_like = 0) ∧
      (lookupKey maind "temp_min" = none → o.temp_min = 0) ∧
      (lookupKey maind "temp_max" = none → o.temp_max = 0) ∧
      (lookupKey maind "pressure" = none → o.pressure = 0) ∧
      (lookupKey maind "humidity" = none → o.humidity = 0) ∧
      (lookupKey windd "speed" = none → o.wind_speed = 0) ∧
      (lookupKey cloudsd "all" = none → o.clouds = 0) ∧
      (lookupKey sysd "country" = none → o.country = .pstr "Unknown") ∧
      (lookupKey wEntry "description" = none → o.description = .pstr "No description") := by
  obtain ⟨qt, hqt, hqt0⟩ := pyFloat_default _ htemp
  obtain ⟨qf, hqf, hqf0⟩ := pyFloat_default _ hfeels
  obtain ⟨qn, hqn, hqn0⟩ := pyFloat_default _ htmin
  obtain ⟨qx, hqx, hqx0⟩ := pyFloat_default _ htmax
  obtain ⟨np, hnp, hnp0⟩ := pyInt_default _ hpress
  obtain ⟨nh, hnh, hnh0⟩ := pyInt_default _ hhum
  obtain ⟨qs, hqs, hqs0⟩ := pyFloat_default _ hspeed
  obtain ⟨na, hna, hna0⟩ := pyInt_default _ hall
  have hck : checkRequired requiredTop (.pdict es) "Missing required field: " = .ok () := by
    apply checkRequired_all_present
    intro f hf
    simp only [requiredTop, List.mem_cons, List.not_mem_nil, or_false] at hf
    rcases hf with rfl | rfl | rfl | rfl | rfl | rfl
    · rw [hname]; rfl
    · rw [hsys]; rfl
    · rw [hmain]; rfl
    · rw [hweather]; rfl
    · rw [hwind]; rfl
    · rw [hclouds]; rfl
  have hwte : wEntry.isEmpty = false := by
    cases wEntry
    · exact absurd rfl hwne
    · rfl
  have hok : parseWeatherInner (.pdict es) now = .ok
      ⟨nameV, (lookupKey sysd "country").getD (.pstr "Unknown"), qt, qf, qn, qx, np, nh,
       (lookupKey wEntry "description").getD (.pstr "No description"), qs, na, now⟩ := by
    unfold parseWeatherInner
    rw [hck]
    simp only [except_bind_ok, pyGetD, pyGetItemS, pyGetItem0, hname, hsys, hmain, hweather,
      hwind, hclouds, Option.getD_some, pyTruthy, hwte, Bool.not_false, Bool.not_not,
      Bool.not_true, if_false, if_true, hqt, hqf, hqn, hqx, hnp, hnh, hqs, hna]
    rfl
  refine ⟨⟨nameV, (lookupKey sysd "country").getD (.pstr "Unknown"), qt, qf, qn, qx, np, nh,
    (lookupKey wEntry "description").getD (.pstr "No description"), qs, na, now⟩,
    ?_, rfl, rfl, rfl, rfl, hqt0, hqf0, hqn0, hqx0, hnp0, hnh0, hqs0, hna0,
    fun h => by rw [h]; rfl, fun h => by rw [h]; rfl⟩
  unfold parse_weather_data
  rw [hok]

/-- Witness for the amended C5: `obsPayload` validates, with the country and
description defaults and zeroed numeric leaves. -/
theorem parse_weather_defaults_witness :
    ∃ o : ParsedObs, parse_weather_data obsPayload 7 = .ok o ∧
      o.city = .pstr "London" ∧ o.country = .pstr "Unknown" ∧
      o.description = .pstr "No description" ∧ o.temperature = 0 := by
  obtain ⟨o, hok, hcity, hcountry, hdesc, htsp, ht, -, -, -, -, -, -, -, -, -⟩ :=
    parse_weather_defaults
      [("name", .pstr "London"), ("sys", .pdict []), ("main", .pdict []),
       ("weather", .plist [.pdict [("main", .pstr "Rain")]]), ("wind", .pdict []),
       ("clouds", .pdict [])]
      [] [] [] [] [("main", .pstr "Rain")] [] (.pstr "London") 7
      rfl rfl rfl rfl rfl rfl (by simp) (Or.inl rfl) (Or.inl rfl) (Or.inl rfl) (Or.inl rfl)
      (Or.inl rfl) (Or.inl rfl) (Or.inl rfl) (Or.inl rfl)
  exact ⟨o, hok, hcity, hcountry.trans rfl, hdesc.trans rfl, ht rfl⟩

/-- C5 (counterexample): a payload whose condition entry carries the *empty*
description string validates to an observation whose description is the empty
string — not the placeholder the claim requires for an empty upstream
description, and not non-empty either. -/
theorem parse_weather_empty_description :
    parse_weather_data c5Payload 0 =
      .ok ⟨.pstr "X", .pstr "Unknown", 0, 0, 0, 0, 0, 0, .pstr "", 0, 0, 0⟩ ∧
    PyVal.pstr "" ≠ PyVal.pstr "No description" ∧
    pyTruthy (.pstr "") = false := by
  refine ⟨rfl, ?_, rfl⟩
  intro h
  injection h with h
  exact absurd h (by decide)

/-- C8 (amended): a transport timeout raises `Timeout` whose message cites the
10-second deadline; HTTP 404 raises `APIError` citing the composed location;
401 and 429 raise their fixed `APIError` messages; and every *other status in
400–599* raises `APIError` citing the numeric status.  (A non-2xx status
outside 400–599, such as 304, does not enter this taxonomy — see the
counterexample.) -/
theorem fetch_error_taxonomy (city : String) (cc : Option String) (url reason : String)
    (body : Option PyVal) (now : Int) :
    (fetch_current_weather city cc .timedOut url now = .error (.timeoutExc
        "Request timed out after 10 seconds. Please check your internet connection and try again.") ∧
      strOccurs "10 seconds"
        "Request timed out after 10 seconds. Please check your internet connection and try again." = true) ∧
    (fetch_current_weather city cc (.got 404 reason body) url now =
        .error (.apiExc ("City \x27" ++ composeLocation city cc ++ "\x27 not found.")) ∧
      strOccurs (composeLocation city cc)
        ("City \x27" ++ composeLocation city cc ++ "\x27 not found.") = true) ∧
    (fetch_current_weather city cc (.got 401 reason body) url now =
        .error (.apiExc "Invalid API key. Please check your configuration.")) ∧
    (fetch_current_weather city cc (.got 429 reason body) url now =
        .error (.apiExc "API rate limit exceeded. Please try again later.")) ∧
    (∀ s : Nat, 400 ≤ s → s < 600 → s ≠ 404 → s ≠ 401 → s ≠ 429 →
      fetch_current_weather city cc (.got s reason body) url now =
        .error (.apiExc ("HTTP error " ++ toString s ++ ": " ++ httpErrText s reason url)) ∧
      strOccurs (toString s) ("HTTP error " ++ toString s ++ ": " ++ httpErrText s reason url) = true) := by
  refine ⟨⟨rfl, by decide⟩, ⟨?_, ?_⟩, ?_, ?_, ?_⟩
  · unfold fetch_current_weather
    dsimp only
    rw [if_pos (by decide : (400 ≤ 404 ∧ 404 < 600))]
    rw [if_pos rfl]
  · exact strOccurs_mid "City \x27" (composeLocation city cc) "\x27 not found."
  · unfold fetch_current_weather
    dsimp only
    rw [if_pos (by decide : (400 ≤ 401 ∧ 401 < 600))]
    rw [if_neg (by decide : ¬(401 = 404))]
    rw [if_pos rfl]
  · unfold fetch_current_weather
    dsimp only
    rw [if_pos (by decide : (400 ≤ 429 ∧ 429 < 600))]
    rw [if_neg (by decide : ¬(429 = 404))]
    rw [if_neg (by decide : ¬(429 = 401))]
    rw [if_pos rfl]
  · intro s h4 h6 hn404 hn401 hn429
    constructor
    · unfold fetch_current_weather
      dsimp only
      rw [if_pos ⟨h4, h6⟩, if_neg hn404, if_neg hn401, if_neg hn429]
    · rw [String.append_assoc ("HTTP error " ++ toString s) ": " (httpErrText s reason url)]
      exact strOccurs_mid "HTTP error " (toString s) (": " ++ httpErrText s reason url)

/-- Witness for the amended C8: a 503 response maps to the UpstreamError case
with the numeric status in the message. -/
theorem fetch_error_taxonomy_witness :
    fetch_current_weather "Berlin" none (.got 503 "Service Unavailable" none) "u" 0 =
      .error (.apiExc "HTTP error 503: 503 Server Error: Service Unavailable for url: u") ∧
    strOccurs "503" "HTTP error 503: 503 Server Error: Service Unavailable for url: u" = true := by
  have h := (fetch_error_taxonomy "Berlin" none "u" "Service Unavailable" none 0).2.2.2.2 503
    (by decide) (by decide) (by decide) (by decide) (by decide)
  exact h

/-- C8 (counterexample): HTTP 304 is a non-2xx status, yet the client raises
no UpstreamError for it — `raise_for_status` only fires for 4xx/5xx, so the
call falls through to body decoding and surfaces a `ValueError` instead. -/
theorem fetch_304_not_upstream_error :
    fetch_current_weather "Paris" none (.got 304 "Not Modified" none) "u" 0 =
      .error (.valueExc ("Invalid JSON response: " ++ jsonDecodeFailText)) ∧
    errIsApi (fetch_current_weather "Paris" none (.got 304 "Not Modified" none) "u" 0) = false ∧
    ¬(200 ≤ 304 ∧ 304 < 300) := ⟨rfl, rfl, by decide⟩

end WeatherCli
